import Mathlib

/-!
# SwishMini bridging header: declarations and their layout

`SwishMini-Bridging-Header.h` declares three record types, one handle type,
one callback type and five functions of the MultitouchSupport framework.
The header has no function body, so its embedding is the list of its
top-level declarations (`header`), each written as a value of `TopLevel`.
On top of it are the functions a C compiler applies to such declarations:
name lookup, and the size, alignment and member offsets of each type, with
the widths and alignments of the scalar types taken as a parameter (`Abi`).
-/

namespace SwishMini

/-! ## C types and declarations -/

/-- The type expressions the header writes: the scalar keywords, a name
introduced by a typedef (of this header or of an imported one), a pointer
`T *` and an array declarator `T name[n]`. -/
inductive CType where
  | void
  | int
  | float
  | double
  | named (name : String)
  | ptr (target : CType)
  | array (elem : CType) (len : Nat)
deriving DecidableEq, Repr

/-- One member of a struct: `int frame;` is `⟨"frame", .int⟩`. A member
declaration with two declarators (`float x, y;`) declares two members. -/
structure Field where
  name : String
  type : CType
deriving DecidableEq, Repr

/-- What stands between the parentheses of a function declarator. An empty
pair `()` declares the function without a prototype: it fixes neither the
number nor the types of the arguments. A written list `(T1, ..., Tk)` is a
prototype with those parameter types, and `(void)` is the prototype of no
parameter, `prototype []`. -/
inductive Params where
  | unspecified
  | prototype (types : List CType)
deriving DecidableEq, Repr

/-- What a `typedef` introduces. -/
inductive TypeBody where
  /-- Form `typedef struct { members } N;`. -/
  | struct (fields : List Field)
  /-- Form `typedef T N;`. -/
  | alias (type : CType)
  /-- Form `typedef R (*N)(P1, ..., Pk);`. -/
  | funcPtr (ret : CType) (params : Params)
deriving DecidableEq, Repr

/-- A top-level item of a C translation unit. The header uses the first
three forms only; function definitions and variables are part of the
language and so of the type. -/
inductive TopLevel where
  /-- Form `#import <target>`. -/
  | inclusion (target : String)
  /-- Form `typedef ... name;`. -/
  | typedef (name : String) (body : TypeBody)
  /-- A function declaration without a body; `external` records the storage
  class written in front of it, `params` what stands between the
  parentheses. -/
  | funcDecl (external : Bool) (ret : CType) (name : String) (params : Params)
  /-- A function with a body. -/
  | funcDef (ret : CType) (name : String) (params : Params) (body : String)
  /-- A variable at file scope. -/
  | varDef (type : CType) (name : String)
deriving DecidableEq, Repr

/-! ## The header, item by item -/

/-- Line 5: `#import <Foundation/Foundation.h>`. -/
def foundation : TopLevel := .inclusion "Foundation/Foundation.h"

/-- Lines 7 to 9: `typedef struct { float x, y; } mtPoint;`. -/
def mtPoint : TopLevel :=
  TopLevel.typedef "mtPoint" (.struct [⟨"x", .float⟩, ⟨"y", .float⟩])

/-- Lines 11 to 14: `typedef struct { mtPoint position; mtPoint velocity; } mtReadout;`. -/
def mtReadout : TopLevel :=
  TopLevel.typedef "mtReadout" (.struct
    [⟨"position", .named "mtPoint"⟩,
     ⟨"velocity", .named "mtPoint"⟩])

/-- Lines 16 to 32: the struct `mtTouch`, members in declaration order. -/
def mtTouch : TopLevel :=
  TopLevel.typedef "mtTouch" (.struct
    [⟨"frame", .int⟩,
     ⟨"timestamp", .double⟩,
     ⟨"identifier", .int⟩,
     ⟨"state", .int⟩,
     ⟨"unknown1", .int⟩,
     ⟨"unknown2", .int⟩,
     ⟨"normalized", .named "mtReadout"⟩,
     ⟨"size", .float⟩,
     ⟨"zero1", .int⟩,
     ⟨"angle", .float⟩,
     ⟨"majorAxis", .float⟩,
     ⟨"minorAxis", .float⟩,
     ⟨"unknown3", .named "mtReadout"⟩,
     ⟨"unknown4", .array .int 2⟩,
     ⟨"unknown5", .float⟩])

/-- Line 34: `typedef void *MTDeviceRef;`. -/
def MTDeviceRef : TopLevel := TopLevel.typedef "MTDeviceRef" (.alias (.ptr .void))

/-- Line 35: `typedef int (*MTContactCallbackFunction)(int, mtTouch *, int, double, int);`. -/
def MTContactCallbackFunction : TopLevel :=
  TopLevel.typedef "MTContactCallbackFunction"
    (.funcPtr .int (.prototype [.int, .ptr (.named "mtTouch"), .int, .double, .int]))

/-- Line 38: `MTDeviceRef MTDeviceCreateDefault();`, declared with external
linkage and with nothing between the parentheses. -/
def MTDeviceCreateDefault : TopLevel :=
  .funcDecl true (.named "MTDeviceRef") "MTDeviceCreateDefault" .unspecified

/-- Line 39: `CFArrayRef MTDeviceCreateList();`, declared with external
linkage and with nothing between the parentheses. -/
def MTDeviceCreateList : TopLevel :=
  .funcDecl true (.named "CFArrayRef") "MTDeviceCreateList" .unspecified

/-- Line 40: `void MTRegisterContactFrameCallback(MTDeviceRef, MTContactCallbackFunction);`. -/
def MTRegisterContactFrameCallback : TopLevel :=
  .funcDecl true .void "MTRegisterContactFrameCallback"
    (.prototype [.named "MTDeviceRef", .named "MTContactCallbackFunction"])

/-- Line 41: `void MTDeviceStart(MTDeviceRef, int);`. -/
def MTDeviceStart : TopLevel :=
  .funcDecl true .void "MTDeviceStart" (.prototype [.named "MTDeviceRef", .int])

/-- Line 42: `void MTDeviceStop(MTDeviceRef);`. -/
def MTDeviceStop : TopLevel :=
  .funcDecl true .void "MTDeviceStop" (.prototype [.named "MTDeviceRef"])

/-- The whole header, top to bottom. -/
def header : List TopLevel :=
  [foundation, mtPoint, mtReadout, mtTouch, MTDeviceRef, MTContactCallbackFunction,
   MTDeviceCreateDefault, MTDeviceCreateList, MTRegisterContactFrameCallback,
   MTDeviceStart, MTDeviceStop]

/-! ## Name lookup -/

/-- The name a top-level item declares, when it declares one. -/
def TopLevel.declaredName : TopLevel → Option String
  | .inclusion _ => none
  | .typedef n _ => some n
  | .funcDecl _ _ n _ => some n
  | .funcDef _ n _ _ => some n
  | .varDef _ n => some n

/-- The body of the first typedef called `name`. -/
def typedefOf (items : List TopLevel) (name : String) : Option TypeBody :=
  match items with
  | [] => none
  | .typedef n b :: rest => if n = name then some b else typedefOf rest name
  | _ :: rest => typedefOf rest name

/-- The members of the struct that a typedef called `name` introduces. -/
def structFields (items : List TopLevel) (name : String) : Option (List Field) :=
  match typedefOf items name with
  | some (.struct fs) => some fs
  | _ => none

/-- The syntactic kind of an item. -/
inductive Kind where
  | inclusion | structTypedef | pointerTypedef | funcPtrTypedef | otherTypedef
  | functionDeclaration | definition | variable
deriving DecidableEq, Repr

/-- Classifies an item by its form. -/
def TopLevel.kind : TopLevel → Kind
  | .inclusion _ => .inclusion
  | .typedef _ (.struct _) => .structTypedef
  | .typedef _ (.alias (.ptr _)) => .pointerTypedef
  | .typedef _ (.alias _) => .otherTypedef
  | .typedef _ (.funcPtr _ _) => .funcPtrTypedef
  | .funcDecl _ _ _ _ => .functionDeclaration
  | .funcDef _ _ _ _ => .definition
  | .varDef _ _ => .variable

/-- True for an item that carries a function body. -/
def TopLevel.hasBody : TopLevel → Bool
  | .funcDef _ _ _ _ => true
  | _ => false

/-- True for an item that only declares: an import, a typedef of a struct,
pointer or function-pointer type, or a body-less function declaration with
external linkage. -/
def TopLevel.isDeclarationOnly : TopLevel → Bool
  | .inclusion _ => true
  | .typedef _ (.struct _) => true
  | .typedef _ (.alias (.ptr _)) => true
  | .typedef _ (.funcPtr _ _) => true
  | .funcDecl true _ _ _ => true
  | _ => false

/-! ## Occurrences of a type name -/

/-- True when the type expression contains the typedef name `n`. -/
def CType.mentions (n : String) : CType → Bool
  | .named m => m = n
  | .ptr t => t.mentions n
  | .array t _ => t.mentions n
  | _ => false

/-- True when the type expression is the typedef name `n` itself, with no
pointer or array declarator around it. -/
def CType.isName (n : String) : CType → Bool
  | .named m => m = n
  | _ => false

/-- True when a written parameter type contains the name `n`. -/
def Params.mentions (n : String) : Params → Bool
  | .unspecified => false
  | .prototype ts => ts.any fun p => p.mentions n

/-- True when the typedef body contains the name `n`. -/
def TypeBody.mentions (n : String) : TypeBody → Bool
  | .struct fs => fs.any fun f => f.type.mentions n
  | .alias t => t.mentions n
  | .funcPtr r ps => r.mentions n || ps.mentions n

/-- True when the item uses the name `n` in a type position. The typedef
that introduces `n` does not use it. -/
def TopLevel.mentions (n : String) : TopLevel → Bool
  | .inclusion _ => false
  | .typedef _ b => b.mentions n
  | .funcDecl _ r _ ps => r.mentions n || ps.mentions n
  | .funcDef r _ ps _ => r.mentions n || ps.mentions n
  | .varDef t _ => t.mentions n

/-- True when the item is a body-less function declaration with external
linkage in which every occurrence of `n` is the bare result type or a bare
parameter type. -/
def TopLevel.onlyPasses (n : String) : TopLevel → Bool
  | .funcDecl true r _ .unspecified => !r.mentions n || r.isName n
  | .funcDecl true r _ (.prototype ts) =>
      (!r.mentions n || r.isName n) && ts.all fun p => !p.mentions n || p.isName n
  | _ => false

/-- Width and alignment in bytes of the scalar types, which the header
leaves to the platform. -/
structure Abi where
  intSize : Nat
  intAlign : Nat
  floatSize : Nat
  floatAlign : Nat
  doubleSize : Nat
  doubleAlign : Nat
  pointerSize : Nat
  pointerAlign : Nat
deriving DecidableEq, Repr

/-- Natural alignment: every scalar is aligned to its own width. -/
def Abi.natural (abi : Abi) : Prop :=
  abi.intAlign = abi.intSize ∧ abi.floatAlign = abi.floatSize
    ∧ abi.doubleAlign = abi.doubleSize ∧ abi.pointerAlign = abi.pointerSize

/-- The 64-bit platforms the framework ships on: 4-byte int and float,
8-byte double and pointer, all naturally aligned. -/
def lp64 : Abi := ⟨4, 4, 4, 4, 8, 8, 8, 8⟩

/-- A 32-bit platform on which a double is 8 bytes wide and aligned to 4. -/
def ilp32 : Abi := ⟨4, 4, 4, 4, 8, 4, 4, 4⟩

/-- One step of the path from a value to a scalar inside it. -/
inductive Step where
  | member (name : String)
  | index (i : Nat)
deriving DecidableEq, Repr

/-- A scalar inside a value: how to reach it, its type, where it starts and
how many bytes it takes. -/
structure Leaf where
  path : List Step
  type : CType
  offset : Nat
  size : Nat
deriving DecidableEq, Repr

/-- Size and alignment of a type, and the scalars it is made of. -/
structure TypeInfo where
  size : Nat
  align : Nat
  leaves : List Leaf
deriving DecidableEq, Repr

/-- The typedef names laid out so far. -/
abbrev Env := List (String × TypeInfo)

/-- The least multiple of `a` that is at least `n`. -/
def roundUp (n a : Nat) : Nat :=
  if a = 0 then n else (n + a - 1) / a * a

/-- A scalar of `size` bytes aligned to `align`: one leaf. -/
def scalarInfo (t : CType) (size align : Nat) : TypeInfo :=
  ⟨size, align, [⟨[], t, 0, size⟩]⟩

/-- A leaf of a part, seen from the whole: one more step in front of the
path, `base` more bytes of offset. -/
def Leaf.within (s : Step) (base : Nat) (l : Leaf) : Leaf :=
  ⟨s :: l.path, l.type, base + l.offset, l.size⟩

/-- The leaves of `n` consecutive elements, the first of which is element `k`
at byte `k * i.size`. -/
def elementLeaves (i : TypeInfo) : Nat → Nat → List Leaf
  | _, 0 => []
  | k, n + 1 => i.leaves.map (Leaf.within (.index k) (k * i.size)) ++ elementLeaves i (k + 1) n

/-- Size, alignment and leaves of a type expression; `none` for `void` and
for a name that is not laid out in `env`. -/
def typeInfo (abi : Abi) (env : Env) : CType → Option TypeInfo
  | .void => none
  | .int => some (scalarInfo .int abi.intSize abi.intAlign)
  | .float => some (scalarInfo .float abi.floatSize abi.floatAlign)
  | .double => some (scalarInfo .double abi.doubleSize abi.doubleAlign)
  | .ptr t => some (scalarInfo (.ptr t) abi.pointerSize abi.pointerAlign)
  | .named n => env.lookup n
  | .array t n =>
      match typeInfo abi env t with
      | some i => some ⟨n * i.size, i.align, elementLeaves i 0 n⟩
      | none => none

/-- A struct member with its place in the struct. -/
structure Member where
  name : String
  type : CType
  offset : Nat
  size : Nat
  align : Nat
deriving DecidableEq, Repr

/-- Places the members one after the other from byte `cur` on, each at the
next multiple of its alignment. -/
def placeMembers (abi : Abi) (env : Env) : Nat → List Field → Option (List Member)
  | _, [] => some []
  | cur, f :: fs =>
      match typeInfo abi env f.type with
      | none => none
      | some i =>
          match placeMembers abi env (roundUp cur i.align + i.size) fs with
          | none => none
          | some ms => some (⟨f.name, f.type, roundUp cur i.align, i.size, i.align⟩ :: ms)

/-- Layout of a struct: total size, alignment and the placed members. -/
structure StructLayout where
  size : Nat
  align : Nat
  members : List Member
deriving DecidableEq, Repr

/-- The first byte after the last member. -/
def membersEnd : List Member → Nat
  | [] => 0
  | [m] => m.offset + m.size
  | _ :: ms => membersEnd ms

/-- The largest alignment among the members, 1 for none. -/
def membersAlign (ms : List Member) : Nat :=
  ms.foldl (fun a m => max a m.align) 1

/-- Layout of a struct with the given members: members placed from byte 0,
alignment the largest member alignment, size the end of the last member
rounded up to the alignment. -/
def layoutStruct (abi : Abi) (env : Env) (fs : List Field) : Option StructLayout :=
  match placeMembers abi env 0 fs with
  | none => none
  | some ms => some ⟨roundUp (membersEnd ms) (membersAlign ms), membersAlign ms, ms⟩

/-- The leaves of placed members, in order. -/
def memberLeaves (abi : Abi) (env : Env) : List Member → List Leaf
  | [] => []
  | m :: ms =>
      (match typeInfo abi env m.type with
       | some i => i.leaves.map (Leaf.within (.member m.name) m.offset)
       | none => []) ++ memberLeaves abi env ms

/-- Size, alignment and leaves of what the typedef `name` introduces. A
pointer to function is a scalar of pointer width. -/
def bodyInfo (abi : Abi) (env : Env) (name : String) : TypeBody → Option TypeInfo
  | .struct fs =>
      match layoutStruct abi env fs with
      | some l => some ⟨l.size, l.align, memberLeaves abi env l.members⟩
      | none => none
  | .alias t => typeInfo abi env t
  | .funcPtr _ _ => some (scalarInfo (.named name) abi.pointerSize abi.pointerAlign)

/-- Adds what one item declares to the laid-out names. C declares before
use, so one pass from the top suffices. -/
def declare (abi : Abi) (env : Env) : TopLevel → Env
  | .typedef n b =>
      match bodyInfo abi env n b with
      | some i => env ++ [(n, i)]
      | none => env
  | _ => env

/-- The laid-out typedef names of a list of items. -/
def envOf (abi : Abi) (items : List TopLevel) : Env :=
  items.foldl (declare abi) []

/-- Layout of the struct that the typedef `name` of `items` introduces, its
member types laid out from the items above it. -/
def structLayoutOf (abi : Abi) (items : List TopLevel) (name : String) : Option StructLayout :=
  match structFields items name with
  | some fs => layoutStruct abi (envOf abi items) fs
  | none => none

/-- Size, alignment and leaves of the typedef `name` of `items`. -/
def infoOf (abi : Abi) (items : List TopLevel) (name : String) : Option TypeInfo :=
  (envOf abi items).lookup name

/-- Name and offset of each member. -/
def StructLayout.offsets (l : StructLayout) : List (String × Nat) :=
  l.members.map fun m => (m.name, m.offset)

/-- The runs of bytes from `cur` up to `total` that no leaf covers, each as
(first byte, length); the leaves are taken in increasing offset. -/
def holes : Nat → List Leaf → Nat → List (Nat × Nat)
  | cur, [], total => if cur < total then [(cur, total - cur)] else []
  | cur, l :: ls, total =>
      if cur < l.offset then (cur, l.offset - cur) :: holes (l.offset + l.size) ls total
      else holes (l.offset + l.size) ls total

/-- The padding of a laid-out type: the bytes of it that belong to no scalar. -/
def TypeInfo.padding (i : TypeInfo) : List (Nat × Nat) :=
  holes 0 i.leaves i.size

/-- Byte at which element `k` of an array of the typedef `name` starts,
counted from the start of the array: `k` times the size of the element. -/
def elementOffset (abi : Abi) (items : List TopLevel) (name : String) (k : Nat) : Option Nat :=
  match infoOf abi items name with
  | some i => some (k * i.size)
  | none => none

/-- The declared type of the member `field` of the struct typedef `name`. -/
def fieldType (items : List TopLevel) (name field : String) : Option CType :=
  match structFields items name with
  | some fs => (fs.find? fun f => f.name = field).map Field.type
  | none => none

/-! ## The description of a Touch, group by group -/

/-- One group of a record description: the members it accepts, and whether
it stands for one member or for a run of one or more members. -/
structure Group where
  accepts : Field → Bool
  several : Bool

/-- True when the members, in order, split into the groups, in order: each
single group takes one member it accepts, each run one or more. -/
def matchGroups : List Group → List Field → Bool
  | [], [] => true
  | [], _ :: _ => false
  | _ :: _, [] => false
  | g :: gs, f :: fs =>
      g.accepts f && (matchGroups gs fs || (g.several && matchGroups (g :: gs) fs))

/-- True when the characters of `p` are the first characters of `s`. -/
def startsWith : List Char → List Char → Bool
  | [], _ => true
  | _ :: _, [] => false
  | c :: p, d :: s => c = d && startsWith p s

/-- A single group for the member called `name` of type `t`. -/
def Group.one (name : String) (t : CType) : Group :=
  ⟨fun f => f.name = name && f.type = t, false⟩

/-- A member the source marks as unknown: its name starts with `unknown`. -/
def Field.markedUnknown (f : Field) : Bool :=
  startsWith "unknown".data f.name.data

/-- The groups of the Touch description, in the order it lists them, each
tied to the member of that meaning and to the stated type. -/
def touchDescription : List Group :=
  [Group.one "frame" .int,
   Group.one "timestamp" .double,
   Group.one "identifier" .int,
   Group.one "state" .int,
   ⟨Field.markedUnknown, true⟩,
   Group.one "normalized" (.named "mtReadout"),
   Group.one "size" .float,
   Group.one "angle" .float,
   Group.one "majorAxis" .float,
   Group.one "minorAxis" .float,
   ⟨fun f => f.markedUnknown && f.type = .named "mtReadout", false⟩,
   ⟨Field.markedUnknown, true⟩]

/-- The same groups read as loosely as the description allows: a named
group accepts any member of the stated type, an unknown group any member. -/
def touchDescriptionByType : List Group :=
  [⟨fun f => f.type = .int, false⟩,
   ⟨fun f => f.type = .double, false⟩,
   ⟨fun f => f.type = .int, false⟩,
   ⟨fun f => f.type = .int, false⟩,
   ⟨fun _ => true, true⟩,
   ⟨fun f => f.type = .named "mtReadout", false⟩,
   ⟨fun f => f.type = .float, false⟩,
   ⟨fun f => f.type = .float, false⟩,
   ⟨fun f => f.type = .float, false⟩,
   ⟨fun f => f.type = .float, false⟩,
   ⟨fun f => f.type = .named "mtReadout", false⟩,
   ⟨fun _ => true, true⟩]

/-- The groups of the Touch description with one more group, the integer
member `zero1`, between the contact size and the angle. -/
def touchDescriptionWithZero : List Group :=
  [Group.one "frame" .int,
   Group.one "timestamp" .double,
   Group.one "identifier" .int,
   Group.one "state" .int,
   ⟨Field.markedUnknown, true⟩,
   Group.one "normalized" (.named "mtReadout"),
   Group.one "size" .float,
   Group.one "zero1" .int,
   Group.one "angle" .float,
   Group.one "majorAxis" .float,
   Group.one "minorAxis" .float,
   ⟨fun f => f.markedUnknown && f.type = .named "mtReadout", false⟩,
   ⟨Field.markedUnknown, true⟩]

/-! ## The declarations -/

/-- C1, as stated, fails: the members of `mtTouch` in declaration order do
not split into the listed groups in the listed order. The ninth member,
`int zero1`, stands between `size` and `angle` and belongs to no group
listed there; the split fails with the groups tied to names and types, and
also when a named group accepts any member of its type and an unknown group
accepts any member at all. -/
theorem touch_description_misses_zero1 :
    (structFields header "mtTouch").map (matchGroups touchDescription) = some false
    ∧ (structFields header "mtTouch").map (matchGroups touchDescriptionByType) = some false
    ∧ (structFields header "mtTouch").map (fun fs => fs.drop 7 |>.take 3)
        = some [⟨"size", .float⟩, ⟨"zero1", .int⟩, ⟨"angle", .float⟩] := by
  decide

/-- C1, amended: the members of `mtTouch`, in declaration order, are
`frame` (int), `timestamp` (double), `identifier` (int), `state` (int), the
unknown members `unknown1` and `unknown2` (int), `normalized` (mtReadout),
`size` (float), the integer member `zero1`, `angle`, `majorAxis` and
`minorAxis` (float each), the unknown readout `unknown3` (mtReadout) and the
trailing unknown members `unknown4` (int[2]) and `unknown5` (float); they
split into the listed groups with the `zero1` group added between size and
angle, every member in one group and no group empty. -/
theorem touch_fields_in_order :
    structFields header "mtTouch" = some
      [⟨"frame", .int⟩, ⟨"timestamp", .double⟩, ⟨"identifier", .int⟩, ⟨"state", .int⟩,
       ⟨"unknown1", .int⟩, ⟨"unknown2", .int⟩, ⟨"normalized", .named "mtReadout"⟩,
       ⟨"size", .float⟩, ⟨"zero1", .int⟩, ⟨"angle", .float⟩, ⟨"majorAxis", .float⟩,
       ⟨"minorAxis", .float⟩, ⟨"unknown3", .named "mtReadout"⟩,
       ⟨"unknown4", .array .int 2⟩, ⟨"unknown5", .float⟩]
    ∧ (structFields header "mtTouch").map (matchGroups touchDescriptionWithZero) = some true := by
  decide

/-- C2: the typedef `MTContactCallbackFunction` is a pointer to a function
of exactly five parameters, in order int, pointer to `mtTouch`, int, double,
int, returning int; `mtTouch` is the struct typedef of the header. -/
theorem callback_signature :
    typedefOf header "MTContactCallbackFunction"
      = some (.funcPtr .int (.prototype [.int, .ptr (.named "mtTouch"), .int, .double, .int]))
    ∧ (structFields header "mtTouch").isSome = true := by
  decide

/-- C5: `mtPoint` has exactly the two float members `x`, `y`; `mtReadout`
has exactly the two `mtPoint` members `position`, `velocity`; with a 4-byte
float aligned to 4 a laid-out `mtReadout` is exactly the four floats position.x,
position.y, velocity.x, velocity.y at bytes 0, 4, 8, 12, each 4 bytes wide,
16 bytes in all with no padding; and the members `normalized` and
`unknown3` of `mtTouch` both have type `mtReadout`. -/
theorem readout_shape (abi : Abi) (hf : abi.floatSize = 4) (ha : abi.floatAlign = 4) :
    structFields header "mtPoint" = some [⟨"x", .float⟩, ⟨"y", .float⟩]
    ∧ structFields header "mtReadout"
        = some [⟨"position", .named "mtPoint"⟩, ⟨"velocity", .named "mtPoint"⟩]
    ∧ infoOf abi header "mtReadout" = some ⟨16, 4,
        [⟨[.member "position", .member "x"], .float, 0, 4⟩,
         ⟨[.member "position", .member "y"], .float, 4, 4⟩,
         ⟨[.member "velocity", .member "x"], .float, 8, 4⟩,
         ⟨[.member "velocity", .member "y"], .float, 12, 4⟩]⟩
    ∧ (infoOf abi header "mtReadout").map TypeInfo.padding = some []
    ∧ fieldType header "mtTouch" "normalized" = some (.named "mtReadout")
    ∧ fieldType header "mtTouch" "unknown3" = some (.named "mtReadout") := by
  obtain ⟨i, ia, f, fa, d, da, p, pa⟩ := abi
  simp only at hf ha
  subst hf ha
  simp [structLayoutOf, structFields, fieldType, typedefOf, elementOffset, TypeInfo.padding, holes,
    StructLayout.offsets, elementLeaves, infoOf, envOf, declare, header, foundation, mtPoint,
    mtReadout, mtTouch, MTDeviceRef, MTContactCallbackFunction, MTDeviceCreateDefault,
    MTDeviceCreateList, MTRegisterContactFrameCallback, MTDeviceStart, MTDeviceStop, bodyInfo,
    layoutStruct, placeMembers, typeInfo, scalarInfo, roundUp, membersAlign, membersEnd,
    memberLeaves, Leaf.within, List.lookup]

/-- Witness of `readout_shape` at the 64-bit widths. -/
theorem readout_shape_witness :
    lp64.floatSize = 4 ∧ lp64.floatAlign = 4
    ∧ infoOf lp64 header "mtReadout" = some ⟨16, 4,
        [⟨[.member "position", .member "x"], .float, 0, 4⟩,
         ⟨[.member "position", .member "y"], .float, 4, 4⟩,
         ⟨[.member "velocity", .member "x"], .float, 8, 4⟩,
         ⟨[.member "velocity", .member "y"], .float, 12, 4⟩]⟩ :=
  ⟨rfl, rfl, (readout_shape lp64 rfl rfl).2.2.1⟩

/-- C6: every top-level item of the header is an import, a typedef of a
struct, pointer or function-pointer type, or a body-less function
declaration with external linkage, and no item carries a function body: one
import, three struct typedefs, one pointer typedef, one function-pointer
typedef and five function declarations. -/
theorem header_declarations_only :
    header.all TopLevel.isDeclarationOnly = true
    ∧ header.any TopLevel.hasBody = false
    ∧ header.map TopLevel.kind
        = [.inclusion, .structTypedef, .structTypedef, .structTypedef, .pointerTypedef,
           .funcPtrTypedef, .functionDeclaration, .functionDeclaration, .functionDeclaration,
           .functionDeclaration, .functionDeclaration] := by
  decide

/-- C7: `MTDeviceRef` is declared as `void *` and not as a struct, so it has
no members, and what it points to has no layout under any widths; the items
that use the name are exactly the declarations `MTDeviceCreateDefault`,
`MTRegisterContactFrameCallback`, `MTDeviceStart` and `MTDeviceStop`, each a
body-less declaration with external linkage in which the handle is the bare
result type or a bare parameter type. -/
theorem device_handle_only_passed :
    typedefOf header "MTDeviceRef" = some (.alias (.ptr .void))
    ∧ structFields header "MTDeviceRef" = none
    ∧ (∀ abi env, typeInfo abi env .void = none)
    ∧ (header.filter (TopLevel.mentions "MTDeviceRef")).map TopLevel.declaredName
        = [some "MTDeviceCreateDefault", some "MTRegisterContactFrameCallback",
           some "MTDeviceStart", some "MTDeviceStop"]
    ∧ (header.filter (TopLevel.mentions "MTDeviceRef")).all (TopLevel.onlyPasses "MTDeviceRef")
        = true := by
  refine ⟨by decide, by decide, fun _ _ => rfl, by decide, by decide⟩

/-- C9: with a 4-byte int, a 4-byte float and an 8-byte double, naturally
aligned, `mtTouch` has size 96 and alignment 8; its members start at frame
0, timestamp 8, identifier 16, state 20, unknown1 24, unknown2 28,
normalized 32, size 48, zero1 52, angle 56, majorAxis 60, minorAxis 64,
unknown3 68, unknown4 84, unknown5 92; the only bytes that belong to no
scalar are the 4 bytes from byte 4; and element `k` of an array of `mtTouch`
starts at byte `96 * k`, the last member ending at byte 96. -/
theorem touch_layout (abi : Abi) (hn : abi.natural) (hi : abi.intSize = 4)
    (hf : abi.floatSize = 4) (hd : abi.doubleSize = 8) :
    (structLayoutOf abi header "mtTouch").map (fun l => (l.size, l.align)) = some (96, 8)
    ∧ (structLayoutOf abi header "mtTouch").map StructLayout.offsets = some
        [("frame", 0), ("timestamp", 8), ("identifier", 16), ("state", 20), ("unknown1", 24),
         ("unknown2", 28), ("normalized", 32), ("size", 48), ("zero1", 52), ("angle", 56),
         ("majorAxis", 60), ("minorAxis", 64), ("unknown3", 68), ("unknown4", 84),
         ("unknown5", 92)]
    ∧ (infoOf abi header "mtTouch").map (fun i => (i.size, i.align)) = some (96, 8)
    ∧ (infoOf abi header "mtTouch").map TypeInfo.padding = some [(4, 4)]
    ∧ (structLayoutOf abi header "mtTouch").map (fun l => membersEnd l.members) = some 96
    ∧ ∀ k, elementOffset abi header "mtTouch" k = some (96 * k) := by
  obtain ⟨i, ia, f, fa, d, da, p, pa⟩ := abi
  obtain ⟨hia, hfa, hda, _⟩ := hn
  simp only at hi hf hd hia hfa hda
  subst hia hfa hda
  subst hi hf hd
  simp [structLayoutOf, structFields, fieldType, typedefOf, elementOffset, TypeInfo.padding, holes,
    StructLayout.offsets, elementLeaves, infoOf, envOf, declare, header, foundation, mtPoint,
    mtReadout, mtTouch, MTDeviceRef, MTContactCallbackFunction, MTDeviceCreateDefault,
    MTDeviceCreateList, MTRegisterContactFrameCallback, MTDeviceStart, MTDeviceStop, bodyInfo,
    layoutStruct, placeMembers, typeInfo, scalarInfo, roundUp, membersAlign, membersEnd,
    memberLeaves, Leaf.within, List.lookup]
  intro k
  exact Nat.mul_comm k 96

/-- Witness of `touch_layout` at the 64-bit widths. -/
theorem touch_layout_witness :
    lp64.natural ∧ lp64.intSize = 4 ∧ lp64.floatSize = 4 ∧ lp64.doubleSize = 8
    ∧ (structLayoutOf lp64 header "mtTouch").map (fun l => (l.size, l.align)) = some (96, 8)
    ∧ elementOffset lp64 header "mtTouch" 3 = some 288 :=
  ⟨⟨rfl, rfl, rfl, rfl⟩, rfl, rfl, rfl,
    (touch_layout lp64 ⟨rfl, rfl, rfl, rfl⟩ rfl rfl rfl).1,
    (touch_layout lp64 ⟨rfl, rfl, rfl, rfl⟩ rfl rfl rfl).2.2.2.2.2 3⟩

/-- The alignment of double matters to the layout: where a double is
aligned to 4, `timestamp` starts at byte 4 and `mtTouch` has no padding and
takes 92 bytes. -/
theorem touch_layout_double_aligned_to_four :
    (infoOf ilp32 header "mtTouch").map (fun i => (i.size, i.align, i.padding))
      = some (92, 4, []) := by
  decide

end SwishMini
